import Mathlib

/-!
# Shallow embedding of the up-mcp tool adapter (src/up_mcp.py)

Each MCP tool in `up_mcp.py` opens a scoped upstream client session
(`async with AsyncClient(token=UP_TOKEN) as client:`), performs one upstream
call, reshapes the result into plain dictionaries or strings, and returns it.

We model the upstream client as an environment `Upstream` recording the
response of each upstream capability, errors as an inductive `UpError`, and
each tool as a function from the environment (and its arguments) to a pair of
an `Except UpError α` result and a trace of session/call events.  The
`async with` block is the combinator `withClient`, which brackets the body's
trace with a session-open and a session-close event on every path, matching
Python's guarantee that `__aexit__` runs both on normal return and on an
exception escaping the body.

Python datetimes are modelled as integers (seconds); dictionary values are a
small sum type `Value`, and a Python dict literal with fixed string keys is an
association list `Dict` in the order the source writes the keys.
-/

/-- Values that the adapter stores in the plain dictionaries it returns:
strings, numbers (account balances, transaction amounts), datetimes, booleans
and `None`. -/
inductive Value where
  | str : String → Value
  | num : Int → Value
  | time : Int → Value
  | bool : Bool → Value
  | null : Value
deriving DecidableEq, Repr

/-- A plain Python dictionary with string keys, as built by a dict literal:
an association list in the order the source lists the keys. -/
def Dict : Type := List (String × Value)

instance : DecidableEq Dict := by
  unfold Dict
  infer_instance

/-- The keys of a dict, in literal order. -/
def dictKeys (d : Dict) : List String := d.map Prod.fst

/-- Python `d[k]` / `d.get(k)`: first binding of a key. -/
def dictLookup (d : Dict) (k : String) : Option Value :=
  match d with
  | [] => none
  | (k', v) :: rest => if k' = k then some v else dictLookup rest k

/-- Errors raised by the upstream `upbankapi` client: `NotAuthorizedException`,
not-found errors for bad identifiers, and transport/service failures. -/
inductive UpError where
  | notAuthorized : UpError
  | notFound : String → UpError
  | transport : String → UpError
deriving DecidableEq, Repr

/-- An upstream `Account` object (`id`, `name`, `balance`), together with the
string the library's `str(account)` produces (the library's formatting is not
part of this repository, so it is carried as data). -/
structure Account where
  id : String
  name : String
  balance : Value
  repr : String
deriving DecidableEq, Repr

/-- An upstream `Transaction` object, with the library's `str(transaction)`. -/
structure Transaction where
  id : String
  description : String
  amount : Value
  status : String
  created_at : Value
  repr : String
deriving DecidableEq, Repr

/-- An upstream `Category` object, with the library's `str(category)`. -/
structure Category where
  id : String
  name : String
  repr : String
deriving DecidableEq, Repr

/-- An upstream `Tag` object. -/
structure Tag where
  id : String
  name : String
deriving DecidableEq, Repr

/-- An upstream `Webhook` object; listing endpoints do not return the secret,
but the creation endpoint does, so the object carries it. -/
structure Webhook where
  id : String
  url : String
  description : Value
  secret_key : String
  created_at : Value
deriving DecidableEq, Repr

/-- The filter arguments `up_mcp.get_transactions` forwards to
`client.transactions(account=…, status=…, since=…, until=…, category=…, tag=…)`. -/
structure TxFilters where
  account : Option String
  status : Option String
  since : Option Int
  until_ : Option Int
  category : Option String
  tag : Option String
deriving DecidableEq, Repr

/-- The upstream client: one field per capability the adapter calls, giving
the upstream's response (a value, or an error it raises).  Listing
capabilities are modelled as returning the full finite sequence of records
the lazy upstream iterator would yield, in upstream order. -/
structure Upstream where
  ping : Except UpError String
  accounts : Except UpError (List Account)
  account : String → Except UpError Account
  categories : Option String → Except UpError (List Category)
  category : String → Except UpError Category
  categorize : String → Option String → Except UpError Bool
  tags : Except UpError (List Tag)
  add_tags : String → List String → Except UpError Bool
  remove_tags : String → List String → Except UpError Bool
  transaction : String → Except UpError Transaction
  transactions : TxFilters → Except UpError (List Transaction)
  webhooks : Except UpError (List Webhook)
  webhookCreate : String → Option String → Except UpError Webhook
  webhookDelete : String → Except UpError Bool
  webhookPing : String → Except UpError String

/-- Observable session/resource events of one tool invocation. -/
inductive Event where
  | sessionOpen : Event
  | upstreamCall : String → Event
  | sessionClose : Event
deriving DecidableEq, Repr

/-- `async with AsyncClient(token=UP_TOKEN) as client: body` — the body runs
inside a fresh scoped session; the session is closed whether the body
returns normally or raises (Python runs `__aexit__` on both paths), and the
body's outcome (value or exception) is then propagated. -/
def withClient {α : Type} (body : Except UpError α × List Event) :
    Except UpError α × List Event :=
  (body.1, Event.sessionOpen :: body.2 ++ [Event.sessionClose])

/-- `get_user_id`: pings upstream inside a `try`; `NotAuthorizedException` is
downgraded to the literal string `"The token is invalid"`, success returns
`f"Authorized: {user_id}"`, and any other exception escapes the `try`. -/
def get_user_id (env : Upstream) : Except UpError String × List Event :=
  withClient
    ((match env.ping with
      | .ok user_id => .ok ("Authorized: " ++ user_id)
      | .error .notAuthorized => .ok "The token is invalid"
      | .error e => .error e),
     [Event.upstreamCall "ping"])

/-- The dict `get_accounts` builds per account. -/
def account_dict (a : Account) : Dict :=
  [("id", .str a.id), ("name", .str a.name), ("balance", a.balance)]

/-- `get_accounts`: drains `client.accounts()` into a list of plain dicts. -/
def get_accounts (env : Upstream) : Except UpError (List Dict) × List Event :=
  withClient
    ((match env.accounts with
      | .ok accounts => .ok (accounts.map account_dict)
      | .error e => .error e),
     [Event.upstreamCall "accounts"])

/-- `get_account(id)`: one `client.account(id)` call, result rendered by the
library's `str`. -/
def get_account (env : Upstream) (id : String) : Except UpError String × List Event :=
  withClient
    ((match env.account id with
      | .ok a => .ok a.repr
      | .error e => .error e),
     [Event.upstreamCall "account"])

/-- The dict `get_categories` builds per category. -/
def category_dict (c : Category) : Dict :=
  [("id", .str c.id), ("name", .str c.name)]

/-- `get_categories(parent_id)`: `client.categories(parent=parent_id)`
projected to `{id, name}` dicts. -/
def get_categories (env : Upstream) (parent_id : Option String) :
    Except UpError (List Dict) × List Event :=
  withClient
    ((match env.categories parent_id with
      | .ok cats => .ok (cats.map category_dict)
      | .error e => .error e),
     [Event.upstreamCall "categories"])

/-- `get_category(category_id)`. -/
def get_category (env : Upstream) (category_id : String) :
    Except UpError String × List Event :=
  withClient
    ((match env.category category_id with
      | .ok c => .ok c.repr
      | .error e => .error e),
     [Event.upstreamCall "category"])

/-- `categorize_transaction(transaction_id, category_id)`: forwards to
`client.categorize`; `category_id = none` models Python `None` (clearing). -/
def categorize_transaction (env : Upstream) (transaction_id : String)
    (category_id : Option String) : Except UpError Bool × List Event :=
  withClient
    ((match env.categorize transaction_id category_id with
      | .ok b => .ok b
      | .error e => .error e),
     [Event.upstreamCall "categorize"])

/-- The dict `get_tags` builds per tag. -/
def tag_dict (t : Tag) : Dict :=
  [("id", .str t.id), ("name", .str t.name)]

/-- `get_tags`. -/
def get_tags (env : Upstream) : Except UpError (List Dict) × List Event :=
  withClient
    ((match env.tags with
      | .ok tags => .ok (tags.map tag_dict)
      | .error e => .error e),
     [Event.upstreamCall "tags"])

/-- `add_transaction_tags(transaction_id, tags)`: `client.add_tags(transaction_id, *tags)`. -/
def add_transaction_tags (env : Upstream) (transaction_id : String)
    (tags : List String) : Except UpError Bool × List Event :=
  withClient
    ((match env.add_tags transaction_id tags with
      | .ok b => .ok b
      | .error e => .error e),
     [Event.upstreamCall "add_tags"])

/-- `remove_transaction_tags(transaction_id, tags)`. -/
def remove_transaction_tags (env : Upstream) (transaction_id : String)
    (tags : List String) : Except UpError Bool × List Event :=
  withClient
    ((match env.remove_tags transaction_id tags with
      | .ok b => .ok b
      | .error e => .error e),
     [Event.upstreamCall "remove_tags"])

/-- `get_transaction(transaction_id)`. -/
def get_transaction (env : Upstream) (transaction_id : String) :
    Except UpError String × List Event :=
  withClient
    ((match env.transaction transaction_id with
      | .ok t => .ok t.repr
      | .error e => .error e),
     [Event.upstreamCall "transaction"])

/-- Seconds in `timedelta(days=7)`. -/
def sevenDays : Int := 7 * 24 * 60 * 60

/-- The long-lived process hosting the adapter; `moduleLoadTime` is the moment
the `def get_transactions` statement executed (module import), the moment at
which Python evaluates the default-argument expression
`datetime.now() - timedelta(days=7)` — once, not per call. -/
structure Process where
  moduleLoadTime : Int
deriving DecidableEq, Repr

/-- The `since` value `get_transactions` actually uses: the source declares
`since: Optional[datetime] = datetime.now() - timedelta(days=7)`, so an
omitted `since` (outer `none`) resolves to the default computed at module
load time; an explicitly passed `since` (outer `some`, possibly Python
`None`) is used as given.  `callTime` is the clock at the invocation; the
source's default expression does not consult it. -/
def get_transactions_effective_since (p : Process) (callTime : Int)
    (since : Option (Option Int)) : Option Int :=
  match since with
  | none => some (p.moduleLoadTime - sevenDays)
  | some s => s

/-- The verbose dict `get_transactions` builds per transaction
(`verbose=True` branch). -/
def tx_verbose_dict (tx : Transaction) : Dict :=
  [("id", .str tx.id), ("description", .str tx.description),
   ("amount", tx.amount), ("status", .str tx.status),
   ("created_at", tx.created_at)]

/-- The summary dict `get_transactions` builds per transaction
(`verbose=False` branch). -/
def tx_summary_dict (tx : Transaction) : Dict :=
  [("description", .str tx.description), ("amount", tx.amount)]

/-- `get_transactions(...)`: builds the filters (with the stale default for
an omitted `since`), calls `client.transactions`, and drains the listing
into verbose or summary dicts depending on `verbose`.  The `since` argument
is `none` when the caller omits it, `some s` when the caller passes `s`
(itself optional, Python `None` being `some none`). -/
def get_transactions (env : Upstream) (p : Process) (callTime : Int)
    (account_id : Option String) (status : Option String)
    (since : Option (Option Int)) (until_ : Option Int)
    (category_id : Option String) (tag_id : Option String) (verbose : Bool) :
    Except UpError (List Dict) × List Event :=
  withClient
    ((match env.transactions
        { account := account_id, status := status,
          since := get_transactions_effective_since p callTime since,
          until_ := until_, category := category_id, tag := tag_id } with
      | .ok txs =>
         .ok (if verbose then txs.map tx_verbose_dict else txs.map tx_summary_dict)
      | .error e => .error e),
     [Event.upstreamCall "transactions"])

/-- The dict `get_webhooks` builds per webhook (no `secret_key`). -/
def webhook_dict (w : Webhook) : Dict :=
  [("id", .str w.id), ("url", .str w.url), ("description", w.description)]

/-- `get_webhooks`. -/
def get_webhooks (env : Upstream) : Except UpError (List Dict) × List Event :=
  withClient
    ((match env.webhooks with
      | .ok ws => .ok (ws.map webhook_dict)
      | .error e => .error e),
     [Event.upstreamCall "webhooks"])

/-- The dict `create_webhook` returns, including the one-time `secret_key`. -/
def created_webhook_dict (w : Webhook) : Dict :=
  [("id", .str w.id), ("url", .str w.url), ("description", w.description),
   ("secret_key", .str w.secret_key), ("created_at", w.created_at)]

/-- `create_webhook(url, description)`: `client.webhook.create(url, description)`
reshaped into a dict that exposes `secret_key`. -/
def create_webhook (env : Upstream) (url : String) (description : Option String) :
    Except UpError Dict × List Event :=
  withClient
    ((match env.webhookCreate url description with
      | .ok w => .ok (created_webhook_dict w)
      | .error e => .error e),
     [Event.upstreamCall "webhook.create"])

/-- `delete_webhook(webhook_id)`. -/
def delete_webhook (env : Upstream) (webhook_id : String) :
    Except UpError Bool × List Event :=
  withClient
    ((match env.webhookDelete webhook_id with
      | .ok b => .ok b
      | .error e => .error e),
     [Event.upstreamCall "webhook.delete"])

/-- `ping_webhook(webhook_id)`: the delivery event rendered by the library's
`str`. -/
def ping_webhook (env : Upstream) (webhook_id : String) :
    Except UpError String × List Event :=
  withClient
    ((match env.webhookPing webhook_id with
      | .ok s => .ok s
      | .error e => .error e),
     [Event.upstreamCall "webhook.ping"])

/-- Outcome of the tool-call binding layer before a tool body runs: either
every parameter bound (using declared defaults for omitted arguments), or a
missing-argument failure for a required parameter the caller omitted. -/
inductive CallOutcome (α : Type) where
  | bound : α → CallOutcome α
  | missingArgument : String → CallOutcome α
deriving DecidableEq

/-- The call surface of `categorize_transaction`: in the source the parameter
is declared `category_id: Optional[str]` with no default value, so a call
that omits the argument (outer `none`) fails to bind — it is a
missing-required-argument error, not a clearing call.  An explicitly passed
argument (outer `some`, possibly Python `None`) reaches the body. -/
def categorize_transaction_tool (env : Upstream) (transaction_id : String)
    (category_arg : Option (Option String)) :
    CallOutcome (Except UpError Bool × List Event) :=
  match category_arg with
  | none => .missingArgument "category_id"
  | some category_id => .bound (categorize_transaction env transaction_id category_id)

/-! ## Concrete environments used as witnesses -/

/-- A sample upstream account. -/
def acct1 : Account :=
  { id := "acc-1", name := "Spending", balance := .num 929,
    repr := "<Account Spending (TRANSACTIONAL): 9.29 AUD>" }

/-- A sample upstream transaction. -/
def tx1 : Transaction :=
  { id := "tx-1", description := "Coffee", amount := .num (-450),
    status := "SETTLED", created_at := .time 1700000000,
    repr := "<Transaction SETTLED: -4.5 AUD [Coffee]>" }

/-- A second sample upstream transaction. -/
def tx2 : Transaction :=
  { id := "tx-2", description := "Groceries", amount := .num (-2000),
    status := "HELD", created_at := .time 1700000100,
    repr := "<Transaction HELD: -20.0 AUD [Groceries]>" }

/-- A sample upstream category. -/
def cat1 : Category :=
  { id := "good-life", name := "Good Life", repr := "<Category Good Life>" }

/-- A sample upstream tag. -/
def tag1 : Tag := { id := "tag-1", name := "Holiday" }

/-- A sample upstream webhook. -/
def wh1 : Webhook :=
  { id := "wh-1", url := "https://example.com/hook", description := .str "hook",
    secret_key := "sek-1", created_at := .time 1700000200 }

/-- An upstream where every capability succeeds. -/
def envOk : Upstream :=
  { ping := .ok "user-1",
    accounts := .ok [acct1],
    account := fun _ => .ok acct1,
    categories := fun _ => .ok [cat1],
    category := fun _ => .ok cat1,
    categorize := fun _ _ => .ok true,
    tags := .ok [tag1],
    add_tags := fun _ _ => .ok true,
    remove_tags := fun _ _ => .ok true,
    transaction := fun _ => .ok tx1,
    transactions := fun _ => .ok [tx1, tx2],
    webhooks := .ok [wh1],
    webhookCreate := fun _ _ => .ok wh1,
    webhookDelete := fun _ => .ok true,
    webhookPing := fun _ => .ok "<WebhookEvent PING: DELIVERED>" }

/-- An upstream that rejects the credential on `ping`. -/
def envBadAuth : Upstream := { envOk with ping := .error .notAuthorized }

/-- An upstream where every capability fails with a transport error. -/
def envDown : Upstream :=
  { ping := .error (.transport "connection reset"),
    accounts := .error (.transport "connection reset"),
    account := fun _ => .error (.transport "connection reset"),
    categories := fun _ => .error (.transport "connection reset"),
    category := fun _ => .error (.transport "connection reset"),
    categorize := fun _ _ => .error (.transport "connection reset"),
    tags := .error (.transport "connection reset"),
    add_tags := fun _ _ => .error (.transport "connection reset"),
    remove_tags := fun _ _ => .error (.transport "connection reset"),
    transaction := fun _ => .error (.transport "connection reset"),
    transactions := fun _ => .error (.transport "connection reset"),
    webhooks := .error (.transport "connection reset"),
    webhookCreate := fun _ _ => .error (.transport "connection reset"),
    webhookDelete := fun _ => .error (.transport "connection reset"),
    webhookPing := fun _ => .error (.transport "connection reset") }

/-- An upstream whose transaction listing is nonempty exactly when the
`since` filter it receives equals the stale import-time default
`0 - sevenDays` of a process loaded at time `0`. -/
def envSinceProbe : Upstream :=
  { envOk with
    transactions := fun f => if f.since = some (0 - sevenDays) then .ok [tx1] else .ok [] }

/-! ## Claims -/

/-- C1: the claim that an omitted `since` defaults to seven days before the
time of each call fails on the code.  The default expression
`datetime.now() - timedelta(days=7)` in the `def get_transactions` signature
is evaluated once, at module load.  For a process loaded at time `0`, calls
at times `1000000` and `2000000` with `since` omitted resolve the same stale
window start `0 - sevenDays` — not their own `callTime - sevenDays` — and an
upstream that matches only the stale window answers both calls identically. -/
theorem get_transactions_since_default_evaluated_at_import_time :
    get_transactions_effective_since ⟨0⟩ 1000000 none =
      get_transactions_effective_since ⟨0⟩ 2000000 none ∧
    get_transactions_effective_since ⟨0⟩ 1000000 none = some (0 - sevenDays) ∧
    get_transactions_effective_since ⟨0⟩ 1000000 none ≠ some (1000000 - sevenDays) ∧
    (get_transactions envSinceProbe ⟨0⟩ 1000000 none none none none none none false).1 =
      .ok [tx_summary_dict tx1] ∧
    (get_transactions envSinceProbe ⟨0⟩ 2000000 none none none none none none false).1 =
      .ok [tx_summary_dict tx1] := by
  refine ⟨rfl, rfl, by decide, ?_, ?_⟩ <;> rfl

/-- C2: `get_user_id` returns `"Authorized: "` followed by the upstream user
id when the credential is valid, and exactly `"The token is invalid"` when
upstream rejects the credential, without propagating the authorization
exception. -/
theorem get_user_id_sentinel_behaviour (env : Upstream) :
    (∀ uid, env.ping = .ok uid →
      (get_user_id env).1 = .ok ("Authorized: " ++ uid)) ∧
    (env.ping = .error .notAuthorized →
      (get_user_id env).1 = .ok "The token is invalid") := by
  constructor
  · intro uid h
    simp [get_user_id, withClient, h]
  · intro h
    simp [get_user_id, withClient, h]

/-- Witness for C2 at concrete environments. -/
theorem get_user_id_sentinel_behaviour_witness :
    (get_user_id envOk).1 = .ok ("Authorized: " ++ "user-1") ∧
    (get_user_id envBadAuth).1 = .ok "The token is invalid" :=
  ⟨(get_user_id_sentinel_behaviour envOk).1 "user-1" rfl,
   (get_user_id_sentinel_behaviour envBadAuth).2 rfl⟩

/-- C10: `get_user_id` downgrades only authorization failures: any other
upstream error raised by `ping` propagates to the caller rather than
producing the `"Authorized: "` string or `"The token is invalid"`. -/
theorem get_user_id_propagates_non_auth_errors (env : Upstream) (e : UpError)
    (hne : e ≠ UpError.notAuthorized) (h : env.ping = .error e) :
    (get_user_id env).1 = .error e := by
  cases e with
  | notAuthorized => exact absurd rfl hne
  | notFound m => simp [get_user_id, withClient, h]
  | transport m => simp [get_user_id, withClient, h]

/-- Witness for C10: a transport failure on `ping` escapes `get_user_id`. -/
theorem get_user_id_propagates_non_auth_errors_witness :
    (get_user_id envDown).1 = .error (.transport "connection reset") :=
  get_user_id_propagates_non_auth_errors envDown (.transport "connection reset")
    (by decide) rfl

/-- C6: every operation opens a fresh scoped session at the start of the
invocation and closes it on every exit path: for every upstream behaviour
(success or any error) and all arguments, the invocation's event trace is
exactly session-open, one upstream call, session-close — so no session
outlives its invocation. -/
theorem every_operation_scoped_session (env : Upstream) (p : Process)
    (ct : Int) (x url : String) (oid : Option String) (xs : List String)
    (si : Option (Option Int)) (u : Option Int) (v : Bool) :
    (get_user_id env).2 = [.sessionOpen, .upstreamCall "ping", .sessionClose] ∧
    (get_accounts env).2 = [.sessionOpen, .upstreamCall "accounts", .sessionClose] ∧
    (get_account env x).2 = [.sessionOpen, .upstreamCall "account", .sessionClose] ∧
    (get_categories env oid).2 = [.sessionOpen, .upstreamCall "categories", .sessionClose] ∧
    (get_category env x).2 = [.sessionOpen, .upstreamCall "category", .sessionClose] ∧
    (categorize_transaction env x oid).2 =
      [.sessionOpen, .upstreamCall "categorize", .sessionClose] ∧
    (get_tags env).2 = [.sessionOpen, .upstreamCall "tags", .sessionClose] ∧
    (add_transaction_tags env x xs).2 =
      [.sessionOpen, .upstreamCall "add_tags", .sessionClose] ∧
    (remove_transaction_tags env x xs).2 =
      [.sessionOpen, .upstreamCall "remove_tags", .sessionClose] ∧
    (get_transaction env x).2 =
      [.sessionOpen, .upstreamCall "transaction", .sessionClose] ∧
    (get_transactions env p ct oid oid si u oid oid v).2 =
      [.sessionOpen, .upstreamCall "transactions", .sessionClose] ∧
    (get_webhooks env).2 = [.sessionOpen, .upstreamCall "webhooks", .sessionClose] ∧
    (create_webhook env url oid).2 =
      [.sessionOpen, .upstreamCall "webhook.create", .sessionClose] ∧
    (delete_webhook env x).2 =
      [.sessionOpen, .upstreamCall "webhook.delete", .sessionClose] ∧
    (ping_webhook env x).2 =
      [.sessionOpen, .upstreamCall "webhook.ping", .sessionClose] :=
  ⟨rfl, rfl, rfl, rfl, rfl, rfl, rfl, rfl, rfl, rfl, rfl, rfl, rfl, rfl, rfl⟩

/-- C3: every operation other than `get_user_id` propagates any upstream
error (authorization failure, not-found, transport/service failure)
unchanged: none of them has a local catch that swallows or transforms it. -/
theorem non_user_id_ops_propagate_upstream_errors (env : Upstream) (e : UpError) :
    (env.accounts = .error e → (get_accounts env).1 = .error e) ∧
    (∀ id, env.account id = .error e → (get_account env id).1 = .error e) ∧
    (∀ pid, env.categories pid = .error e → (get_categories env pid).1 = .error e) ∧
    (∀ cid, env.category cid = .error e → (get_category env cid).1 = .error e) ∧
    (∀ txid cid, env.categorize txid cid = .error e →
      (categorize_transaction env txid cid).1 = .error e) ∧
    (env.tags = .error e → (get_tags env).1 = .error e) ∧
    (∀ txid ts, env.add_tags txid ts = .error e →
      (add_transaction_tags env txid ts).1 = .error e) ∧
    (∀ txid ts, env.remove_tags txid ts = .error e →
      (remove_transaction_tags env txid ts).1 = .error e) ∧
    (∀ txid, env.transaction txid = .error e → (get_transaction env txid).1 = .error e) ∧
    (∀ p ct a s si u c tg v,
      env.transactions
        { account := a, status := s,
          since := get_transactions_effective_since p ct si,
          until_ := u, category := c, tag := tg } = .error e →
      (get_transactions env p ct a s si u c tg v).1 = .error e) ∧
    (env.webhooks = .error e → (get_webhooks env).1 = .error e) ∧
    (∀ url d, env.webhookCreate url d = .error e → (create_webhook env url d).1 = .error e) ∧
    (∀ wid, env.webhookDelete wid = .error e → (delete_webhook env wid).1 = .error e) ∧
    (∀ wid, env.webhookPing wid = .error e → (ping_webhook env wid).1 = .error e) := by
  refine ⟨?_, ?_, ?_, ?_, ?_, ?_, ?_, ?_, ?_, ?_, ?_, ?_, ?_, ?_⟩ <;> intros <;>
    simp_all [get_accounts, get_account, get_categories, get_category,
      categorize_transaction, get_tags, add_transaction_tags, remove_transaction_tags,
      get_transaction, get_transactions, get_webhooks, create_webhook, delete_webhook,
      ping_webhook, withClient]

/-- Witness for C3: with upstream fully down, every non-`get_user_id`
operation surfaces the transport error unchanged. -/
theorem non_user_id_ops_propagate_upstream_errors_witness :
    (get_accounts envDown).1 = .error (.transport "connection reset") ∧
    (get_account envDown "acc-1").1 = .error (.transport "connection reset") ∧
    (get_categories envDown none).1 = .error (.transport "connection reset") ∧
    (get_category envDown "good-life").1 = .error (.transport "connection reset") ∧
    (categorize_transaction envDown "tx-1" none).1 = .error (.transport "connection reset") ∧
    (get_tags envDown).1 = .error (.transport "connection reset") ∧
    (add_transaction_tags envDown "tx-1" ["tag-1"]).1 = .error (.transport "connection reset") ∧
    (remove_transaction_tags envDown "tx-1" ["tag-1"]).1 =
      .error (.transport "connection reset") ∧
    (get_transaction envDown "tx-1").1 = .error (.transport "connection reset") ∧
    (get_transactions envDown ⟨0⟩ 0 none none none none none none false).1 =
      .error (.transport "connection reset") ∧
    (get_webhooks envDown).1 = .error (.transport "connection reset") ∧
    (create_webhook envDown "https://example.com/hook" none).1 =
      .error (.transport "connection reset") ∧
    (delete_webhook envDown "wh-1").1 = .error (.transport "connection reset") ∧
    (ping_webhook envDown "wh-1").1 = .error (.transport "connection reset") := by
  have h := non_user_id_ops_propagate_upstream_errors envDown (.transport "connection reset")
  exact ⟨h.1 rfl, h.2.1 "acc-1" rfl, h.2.2.1 none rfl, h.2.2.2.1 "good-life" rfl,
    h.2.2.2.2.1 "tx-1" none rfl, h.2.2.2.2.2.1 rfl, h.2.2.2.2.2.2.1 "tx-1" ["tag-1"] rfl,
    h.2.2.2.2.2.2.2.1 "tx-1" ["tag-1"] rfl, h.2.2.2.2.2.2.2.2.1 "tx-1" rfl,
    h.2.2.2.2.2.2.2.2.2.1 ⟨0⟩ 0 none none none none none none false rfl,
    h.2.2.2.2.2.2.2.2.2.2.1 rfl,
    h.2.2.2.2.2.2.2.2.2.2.2.1 "https://example.com/hook" none rfl,
    h.2.2.2.2.2.2.2.2.2.2.2.2.1 "wh-1" rfl,
    h.2.2.2.2.2.2.2.2.2.2.2.2.2 "wh-1" rfl⟩

/-- C4: every record returned by `get_transactions` has exactly the keys
`{description, amount}` when `verbose=false`, and exactly the keys
`{id, description, amount, status, created_at}` when `verbose=true`. -/
theorem get_transactions_record_keys (env : Upstream) (p : Process) (ct : Int)
    (a s : Option String) (si : Option (Option Int)) (u : Option Int)
    (c tg : Option String) (txs : List Transaction)
    (h : env.transactions
      { account := a, status := s,
        since := get_transactions_effective_since p ct si,
        until_ := u, category := c, tag := tg } = .ok txs) :
    ((get_transactions env p ct a s si u c tg false).1 = .ok (txs.map tx_summary_dict) ∧
     ∀ d ∈ txs.map tx_summary_dict, dictKeys d = ["description", "amount"]) ∧
    ((get_transactions env p ct a s si u c tg true).1 = .ok (txs.map tx_verbose_dict) ∧
     ∀ d ∈ txs.map tx_verbose_dict,
       dictKeys d = ["id", "description", "amount", "status", "created_at"]) := by
  refine ⟨⟨?_, ?_⟩, ⟨?_, ?_⟩⟩
  · simp [get_transactions, withClient, h]
  · intro d hd
    rcases List.mem_map.mp hd with ⟨tx, _, rfl⟩
    rfl
  · simp [get_transactions, withClient, h]
  · intro d hd
    rcases List.mem_map.mp hd with ⟨tx, _, rfl⟩
    rfl

/-- Witness for C4 at a concrete environment with two transactions. -/
theorem get_transactions_record_keys_witness :
    (get_transactions envOk ⟨0⟩ 0 none none none none none none false).1 =
      .ok [tx_summary_dict tx1, tx_summary_dict tx2] ∧
    dictKeys (tx_summary_dict tx1) = ["description", "amount"] ∧
    (get_transactions envOk ⟨0⟩ 0 none none none none none none true).1 =
      .ok [tx_verbose_dict tx1, tx_verbose_dict tx2] ∧
    dictKeys (tx_verbose_dict tx1) =
      ["id", "description", "amount", "status", "created_at"] := by
  have h := get_transactions_record_keys envOk ⟨0⟩ 0 none none none none none none [tx1, tx2] rfl
  exact ⟨h.1.1, h.1.2 _ (by simp), h.2.1, h.2.2 _ (by simp)⟩

/-- C7 counterexample: in the source, the parameter is declared
`category_id: Optional[str]` with no default value, so a call that omits the
category argument fails to bind the parameter instead of clearing the
categorization — it does not return `true` and never reaches the body. -/
theorem categorize_transaction_omission_counterexample :
    categorize_transaction_tool envOk "tx-1" none = .missingArgument "category_id" ∧
    categorize_transaction_tool envOk "tx-1" none ≠
      .bound (categorize_transaction envOk "tx-1" none) :=
  ⟨rfl, fun h => CallOutcome.noConfusion h⟩

/-- C7 (amended): `categorize_transaction` returns a boolean success flag;
the category argument cannot be omitted (the parameter has no default) but
is nullable: passing a category id assigns it and explicitly passing `None`
clears the categorization, both returning `true` when upstream succeeds. -/
theorem categorize_transaction_required_nullable (env : Upstream)
    (txid cid : String)
    (hassign : env.categorize txid (some cid) = .ok true)
    (hclear : env.categorize txid none = .ok true) :
    categorize_transaction_tool env txid (some (some cid)) =
      .bound (categorize_transaction env txid (some cid)) ∧
    (categorize_transaction env txid (some cid)).1 = .ok true ∧
    categorize_transaction_tool env txid (some none) =
      .bound (categorize_transaction env txid none) ∧
    (categorize_transaction env txid none).1 = .ok true := by
  refine ⟨rfl, ?_, rfl, ?_⟩ <;>
    simp [categorize_transaction, withClient, hassign, hclear]

/-- Witness for the amended C7 at a concrete environment. -/
theorem categorize_transaction_required_nullable_witness :
    categorize_transaction_tool envOk "tx-1" (some (some "good-life")) =
      .bound (categorize_transaction envOk "tx-1" (some "good-life")) ∧
    (categorize_transaction envOk "tx-1" (some "good-life")).1 = .ok true ∧
    categorize_transaction_tool envOk "tx-1" (some none) =
      .bound (categorize_transaction envOk "tx-1" none) ∧
    (categorize_transaction envOk "tx-1" none).1 = .ok true :=
  categorize_transaction_required_nullable envOk "tx-1" "good-life" rfl rfl

/-- Stated from the spec's words for the refinement claim: the projection of
a transaction record onto its `description` and `amount` fields. -/
def spec_summary_projection (d : Dict) : Dict :=
  [("description", (dictLookup d "description").getD .null),
   ("amount", (dictLookup d "amount").getD .null)]

/-- Projecting a verbose record onto `description` and `amount` gives
exactly the summary record of the same transaction. -/
theorem spec_projection_of_verbose (tx : Transaction) :
    spec_summary_projection (tx_verbose_dict tx) = tx_summary_dict tx := rfl

/-- C5: for the same filter arguments and the same upstream transaction
sequence, the `verbose=false` list is the element-wise, order-preserving
projection of the `verbose=true` list onto `(description, amount)`: same
length, the summary list is the spec projection of the verbose list, and
the i-th records agree on `description` and `amount`. -/
theorem get_transactions_summary_refines_verbose (env : Upstream) (p : Process)
    (ct : Int) (a s : Option String) (si : Option (Option Int)) (u : Option Int)
    (c tg : Option String) (txs : List Transaction)
    (h : env.transactions
      { account := a, status := s,
        since := get_transactions_effective_since p ct si,
        until_ := u, category := c, tag := tg } = .ok txs) :
    (get_transactions env p ct a s si u c tg false).1 = .ok (txs.map tx_summary_dict) ∧
    (get_transactions env p ct a s si u c tg true).1 = .ok (txs.map tx_verbose_dict) ∧
    (txs.map tx_summary_dict).length = (txs.map tx_verbose_dict).length ∧
    txs.map tx_summary_dict = (txs.map tx_verbose_dict).map spec_summary_projection ∧
    (∀ i (h₁ : i < (txs.map tx_summary_dict).length)
        (h₂ : i < (txs.map tx_verbose_dict).length),
      dictLookup ((txs.map tx_summary_dict).get ⟨i, h₁⟩) "description" =
        dictLookup ((txs.map tx_verbose_dict).get ⟨i, h₂⟩) "description" ∧
      dictLookup ((txs.map tx_summary_dict).get ⟨i, h₁⟩) "amount" =
        dictLookup ((txs.map tx_verbose_dict).get ⟨i, h₂⟩) "amount") := by
  refine ⟨?_, ?_, by simp, ?_, ?_⟩
  · simp [get_transactions, withClient, h]
  · simp [get_transactions, withClient, h]
  · simp [List.map_map]
    exact fun tx _ => (spec_projection_of_verbose tx).symm
  · intro i h₁ h₂
    constructor <;>
      simp [List.get_eq_getElem, List.getElem_map, tx_summary_dict,
        tx_verbose_dict, dictLookup]

/-- Witness for C5 at a concrete environment with two transactions. -/
theorem get_transactions_summary_refines_verbose_witness :
    (get_transactions envOk ⟨0⟩ 0 none none none none none none false).1 =
      .ok ([tx1, tx2].map tx_summary_dict) ∧
    (get_transactions envOk ⟨0⟩ 0 none none none none none none true).1 =
      .ok ([tx1, tx2].map tx_verbose_dict) ∧
    ([tx1, tx2].map tx_summary_dict).length = ([tx1, tx2].map tx_verbose_dict).length ∧
    [tx1, tx2].map tx_summary_dict =
      ([tx1, tx2].map tx_verbose_dict).map spec_summary_projection ∧
    dictLookup (([tx1, tx2].map tx_summary_dict).get ⟨0, by decide⟩) "description" =
      dictLookup (([tx1, tx2].map tx_verbose_dict).get ⟨0, by decide⟩) "description" := by
  have h := get_transactions_summary_refines_verbose envOk ⟨0⟩ 0
    none none none none none none [tx1, tx2] rfl
  exact ⟨h.1, h.2.1, h.2.2.1, h.2.2.2.1, (h.2.2.2.2 0 (by decide) (by decide)).1⟩

/-- C8: `create_webhook` returns a record with exactly the keys
`{id, url, description, secret_key, created_at}`, while every `get_webhooks`
record has exactly the keys `{id, url, description}` — in particular
`secret_key` never appears in a `get_webhooks` record. -/
theorem webhook_secret_key_only_at_creation (env : Upstream) (url : String)
    (d : Option String) (w : Webhook) (ws : List Webhook)
    (hc : env.webhookCreate url d = .ok w) (hl : env.webhooks = .ok ws) :
    ((create_webhook env url d).1 = .ok (created_webhook_dict w) ∧
     dictKeys (created_webhook_dict w) =
       ["id", "url", "description", "secret_key", "created_at"]) ∧
    ((get_webhooks env).1 = .ok (ws.map webhook_dict) ∧
     ∀ r ∈ ws.map webhook_dict,
       dictKeys r = ["id", "url", "description"] ∧ "secret_key" ∉ dictKeys r) := by
  refine ⟨⟨?_, rfl⟩, ⟨?_, ?_⟩⟩
  · simp [create_webhook, withClient, hc]
  · simp [get_webhooks, withClient, hl]
  · intro r hr
    rcases List.mem_map.mp hr with ⟨wh, _, rfl⟩
    exact ⟨rfl, show "secret_key" ∉ ["id", "url", "description"] from by decide⟩

/-- Witness for C8 at a concrete environment. -/
theorem webhook_secret_key_only_at_creation_witness :
    ((create_webhook envOk "https://example.com/hook" none).1 =
       .ok (created_webhook_dict wh1) ∧
     dictKeys (created_webhook_dict wh1) =
       ["id", "url", "description", "secret_key", "created_at"]) ∧
    ((get_webhooks envOk).1 = .ok ([wh1].map webhook_dict) ∧
     dictKeys (webhook_dict wh1) = ["id", "url", "description"] ∧
     "secret_key" ∉ dictKeys (webhook_dict wh1)) := by
  have h := webhook_secret_key_only_at_creation envOk "https://example.com/hook"
    none wh1 [wh1] rfl rfl
  exact ⟨h.1, h.2.1, h.2.2 _ (by simp)⟩

/-- C9: each collection-returning operation drains the whole upstream
listing into a plain list of plain dictionary records, in upstream order
(the result is the element-wise image of the upstream sequence), with
length equal to the number of upstream records. -/
theorem collection_ops_drain_fully (env : Upstream) (p : Process) (ct : Int)
    (pid a s c tg : Option String) (si : Option (Option Int)) (u : Option Int)
    (v : Bool) (accs : List Account) (cats : List Category) (tgs : List Tag)
    (txs : List Transaction) (whs : List Webhook)
    (h₁ : env.accounts = .ok accs) (h₂ : env.categories pid = .ok cats)
    (h₃ : env.tags = .ok tgs)
    (h₄ : env.transactions
      { account := a, status := s,
        since := get_transactions_effective_since p ct si,
        until_ := u, category := c, tag := tg } = .ok txs)
    (h₅ : env.webhooks = .ok whs) :
    ((get_accounts env).1 = .ok (accs.map account_dict) ∧
      (accs.map account_dict).length = accs.length) ∧
    ((get_categories env pid).1 = .ok (cats.map category_dict) ∧
      (cats.map category_dict).length = cats.length) ∧
    ((get_tags env).1 = .ok (tgs.map tag_dict) ∧
      (tgs.map tag_dict).length = tgs.length) ∧
    ((get_transactions env p ct a s si u c tg v).1 =
        .ok (if v then txs.map tx_verbose_dict else txs.map tx_summary_dict) ∧
      (if v then txs.map tx_verbose_dict else txs.map tx_summary_dict).length =
        txs.length) ∧
    ((get_webhooks env).1 = .ok (whs.map webhook_dict) ∧
      (whs.map webhook_dict).length = whs.length) := by
  refine ⟨⟨?_, by simp⟩, ⟨?_, by simp⟩, ⟨?_, by simp⟩,
    ⟨?_, by cases v <;> simp⟩, ⟨?_, by simp⟩⟩
  · simp [get_accounts, withClient, h₁]
  · simp [get_categories, withClient, h₂]
  · simp [get_tags, withClient, h₃]
  · simp [get_transactions, withClient, h₄]
  · simp [get_webhooks, withClient, h₅]

/-- Witness for C9 at a concrete environment. -/
theorem collection_ops_drain_fully_witness :
    ((get_accounts envOk).1 = .ok ([acct1].map account_dict) ∧
      ([acct1].map account_dict).length = [acct1].length) ∧
    ((get_categories envOk none).1 = .ok ([cat1].map category_dict) ∧
      ([cat1].map category_dict).length = [cat1].length) ∧
    ((get_tags envOk).1 = .ok ([tag1].map tag_dict) ∧
      ([tag1].map tag_dict).length = [tag1].length) ∧
    ((get_transactions envOk ⟨0⟩ 0 none none none none none none true).1 =
        .ok (if true then [tx1, tx2].map tx_verbose_dict
             else [tx1, tx2].map tx_summary_dict) ∧
      (if true then [tx1, tx2].map tx_verbose_dict
       else [tx1, tx2].map tx_summary_dict).length = [tx1, tx2].length) ∧
    ((get_webhooks envOk).1 = .ok ([wh1].map webhook_dict) ∧
      ([wh1].map webhook_dict).length = [wh1].length) :=
  collection_ops_drain_fully envOk ⟨0⟩ 0 none none none none none none none true
    [acct1] [cat1] [tag1] [tx1, tx2] [wh1] rfl rfl rfl rfl rfl
